import Mathlib

/-!
Verification development for the cosmetics-analysis pipeline
(`CosmeticsAnalysis/analysis/cosmetics_analysis.py`).

The tabular dataset is embedded shallowly: a record is a function from
column names to cells, a data frame is a column list together with a row
list.  Library calls (pandas value counts, group-bys, unstack, sorting)
are translated to executable list functions; the outcome of operating
system calls (directory creation, file writes) is passed in as explicit
booleans.  Date parsing is external to the program, so a raw cell that
parses as a date is represented by the constructor `datestr` carrying the
parsed components, and a raw cell that does not parse by `strv`.
-/

namespace CosmeticsAnalysis

/-- A cell of the tabular dataset.  `null` is a missing value (NaN/NaT),
`strv` a scalar that does not parse as a date, `datestr` a raw value that
parses as the given calendar date, `date` a datetime value produced by
coercion, `int` an integer (used for the derived year column). -/
inductive Cell where
  | null : Cell
  | strv : String → Cell
  | datestr : Nat → Nat → Nat → Cell
  | date : Nat → Nat → Nat → Cell
  | int : Int → Cell
  deriving DecidableEq, Repr

/-- A record maps column names to cells; columns absent from the frame
read as `null`. -/
def Record : Type := String → Cell

/-- A data frame: the list of column names and the list of rows. -/
structure DataFrame where
  cols : List String
  rows : List Record

/-- The list of values of one column, in row order. -/
def DataFrame.col (df : DataFrame) (c : String) : List Cell :=
  df.rows.map (fun r => r c)

/-- `pd.to_datetime(x, errors='coerce')` on a single cell: values that
parse become dates, everything else becomes missing (NaT). -/
def toDatetime : Cell → Cell
  | Cell.datestr y m d => Cell.date y m d
  | Cell.date y m d => Cell.date y m d
  | _ => Cell.null

/-- `Series.dt.year` on a single cell of a datetime column. -/
def dtYear : Cell → Cell
  | Cell.date y _ _ => Cell.int (Int.ofNat y)
  | _ => Cell.null

/-- Update a record at one column. -/
def updFn (c : String) (f : Cell → Cell) (r : Record) : Record :=
  fun s => if s = c then f (r s) else r s

/-- `self.df[c] = self.df[c].map f`: apply `f` down one column. -/
def DataFrame.setCol (df : DataFrame) (c : String) (f : Cell → Cell) : DataFrame :=
  { cols := df.cols, rows := df.rows.map (updFn c f) }

/-- `self.df[c] = <expression of each row>`: add (or overwrite) a derived
column. -/
def DataFrame.addColFrom (df : DataFrame) (c : String) (f : Record → Cell) : DataFrame :=
  { cols := if c ∈ df.cols then df.cols else df.cols ++ [c],
    rows := df.rows.map (fun r => fun s => if s = c then f r else r s) }

/-- The fixed list of date columns coerced by `load_data`. -/
def date_cols : List String :=
  ["InitialDateReported", "MostRecentDateReported", "DiscontinuedDate",
   "ChemicalCreatedAt", "ChemicalUpdatedAt"]

/-- The `for col in date_cols` loop of `load_data`: coerce each date
column that is present. -/
def coerceDates (df : DataFrame) : DataFrame :=
  date_cols.foldl (fun d c => if c ∈ d.cols then d.setCol c toDatetime else d) df

/-- `self.df['ReportYear'] = self.df['InitialDateReported'].dt.year`,
guarded by column presence. -/
def addReportYear (df : DataFrame) : DataFrame :=
  if "InitialDateReported" ∈ df.cols then
    df.addColFrom "ReportYear" (fun r => dtYear (r "InitialDateReported"))
  else df

/-- The cleaning phase of `load_data`: date coercion, then the derived
year column. -/
def cleanData (df : DataFrame) : DataFrame :=
  addReportYear (coerceDates df)

/-- `load_data`, with the existence of the path passed in as a boolean
and the parsed file contents as `raw`.  Returns the success flag and the
value of `self.df` after the call (`none` = Python `None`). -/
def load_data (pathExists : Bool) (raw : DataFrame) : Bool × Option DataFrame :=
  if pathExists then (true, some (cleanData raw)) else (false, none)

/-! ### Helper lemmas about the cleaning phase -/

/-- Row transformer accumulated by the date-coercion loop. -/
def coerceFn (cs : List String) (present : List String) (r : Record) : Record :=
  cs.foldl (fun r c => if c ∈ present then updFn c toDatetime r else r) r

/-! ### Aggregation primitives (pandas calls translated to list functions) -/

/-- Descending comparison by a natural-number key, used to model
`sort_values(..., ascending=False)` and the descending order of
`value_counts`. -/
def descBy {α : Type} (key : α → Nat) (a b : α) : Prop :=
  key b ≤ key a

instance {α : Type} (key : α → Nat) : DecidableRel (descBy key) :=
  fun a b => Nat.decLe (key b) (key a)

instance {α : Type} (key : α → Nat) : IsTotal α (descBy key) :=
  ⟨fun a b => Nat.le_total (key b) (key a)⟩

instance {α : Type} (key : α → Nat) : IsTrans α (descBy key) :=
  ⟨fun _ _ _ h1 h2 => Nat.le_trans h2 h1⟩

/-- `Series.value_counts()`: frequency of each non-null value, in
descending order of count. -/
def value_counts (l : List Cell) : List (Cell × Nat) :=
  List.insertionSort (descBy Prod.snd)
    ((l.filter (fun v => decide (v ≠ Cell.null))).dedup.map
      (fun v => (v, (l.filter (fun v => decide (v ≠ Cell.null))).count v)))

/-- The distinct group keys of `groupby(c)`: the distinct non-null values
of column `c` (rows with a null key are dropped by pandas). -/
def groupKeys (df : DataFrame) (c : String) : List Cell :=
  ((df.col c).filter (fun v => decide (v ≠ Cell.null))).dedup

/-- The rows of the group with key `k` under `groupby(c)`. -/
def groupRows (df : DataFrame) (c : String) (k : Cell) : List Record :=
  df.rows.filter (fun r => decide (r c = k))

/-- `Series.nunique()`: the number of distinct non-null values. -/
def nuniqueCells (l : List Cell) : Nat :=
  ((l.filter (fun v => decide (v ≠ Cell.null))).dedup).length

/-- `groupby([c1, c2]).size()`: grouped counts over pairs of non-null
keys, in order of first appearance. -/
def groupPairCounts (df : DataFrame) (c1 c2 : String) : List ((Cell × Cell) × Nat) :=
  let pairs := (df.rows.filter
      (fun r => decide (r c1 ≠ Cell.null ∧ r c2 ≠ Cell.null))).map
      (fun r => (r c1, r c2))
  pairs.dedup.map (fun p => (p, pairs.count p))

/-- `groupby(keyCol)[valCol].nunique()`: per-group distinct non-null
value count. -/
def nuniqueBy (df : DataFrame) (keyCol valCol : String) : List (Cell × Nat) :=
  (groupKeys df keyCol).map
    (fun k => (k, nuniqueCells ((groupRows df keyCol k).map (fun r => r valCol))))

/-! ### basic_analysis -/

/-- The categorical columns of `basic_analysis`. -/
def cat_cols : List String :=
  ["CompanyName", "BrandName", "PrimaryCategory", "SubCategory", "ChemicalName"]

structure BasicAnalysisOutput where
  totalRecords : Nat
  uniqueCounts : List (String × Nat)
  deriving DecidableEq, Repr

/-- `basic_analysis` (the printed row count and per-column distinct
counts; type and null-count printing has no further observable effect). -/
def basic_analysis (df : DataFrame) : BasicAnalysisOutput :=
  { totalRecords := df.rows.length,
    uniqueCounts := (cat_cols.filter (fun c => decide (c ∈ df.cols))).map
      (fun c => (c, nuniqueCells (df.col c))) }

/-! ### chemical_analysis -/

/-- The (ReportYear, ChemicalName) key pairs of
`groupby(['ReportYear', 'ChemicalName']).size()`: rows with either key
null are dropped. -/
def trendPairs (df : DataFrame) : List (Cell × Cell) :=
  (df.rows.filter
      (fun r => decide (r "ReportYear" ≠ Cell.null ∧ r "ChemicalName" ≠ Cell.null))).map
    (fun r => (r "ReportYear", r "ChemicalName"))

/-- The row labels (years) of the unstacked trends matrix. -/
def trendYears (df : DataFrame) : List Cell :=
  ((trendPairs df).map Prod.fst).dedup

/-- The column labels (chemical names) of the unstacked trends matrix. -/
def trendChems (df : DataFrame) : List Cell :=
  ((trendPairs df).map Prod.snd).dedup

/-- The size of the (year, chemical) group. -/
def trendCount (df : DataFrame) (y c : Cell) : Nat :=
  (trendPairs df).count (y, c)

/-- One cell of `groupby(['ReportYear','ChemicalName']).size().unstack()`:
a (year, chemical) combination with no record is left as NaN (`none`),
not filled with zero. -/
def chem_trends_cell (df : DataFrame) (y c : Cell) : Option Nat :=
  if trendCount df y c = 0 then none else some (trendCount df y c)

/-- `chem_trends.sum(axis=1)` at row `y`: the per-year total, summing the
row and skipping NaN cells. -/
def perYearTotal (df : DataFrame) (y : Cell) : Nat :=
  ((trendChems df).map (fun c => (chem_trends_cell df y c).getD 0)).sum

structure ChemicalAnalysisOutput where
  chemCounts : List (Cell × Nat)
  chemByCategory : List ((Cell × Cell) × Nat)
  perYearTotals : Option (List (Cell × Nat))
  chartSaved : Bool
  deriving DecidableEq, Repr

/-- `chemical_analysis`: top chemical counts, category × chemical group
sizes, and — only when `ReportYear` is present — the per-year totals of
the trends matrix and the saved `chemical_trends.png` chart. -/
def chemical_analysis (df : DataFrame) : ChemicalAnalysisOutput :=
  { chemCounts := value_counts (df.col "ChemicalName"),
    chemByCategory := groupPairCounts df "PrimaryCategory" "ChemicalName",
    perYearTotals :=
      if "ReportYear" ∈ df.cols then
        some ((trendYears df).map (fun y => (y, perYearTotal df y)))
      else none,
    chartSaved := decide ("ReportYear" ∈ df.cols) }

/-! ### product_analysis -/

/-- Per-company distinct product and chemical counts, before sorting
(`groupby('CompanyName').agg(...)`). -/
def company_stats_raw (df : DataFrame) : List (Cell × Nat × Nat) :=
  (groupKeys df "CompanyName").map
    (fun k =>
      (k, nuniqueCells ((groupRows df "CompanyName" k).map (fun r => r "ProductName")),
          nuniqueCells ((groupRows df "CompanyName" k).map (fun r => r "ChemicalName"))))

/-- `company_stats`: the per-company table sorted descending by the
distinct-product count (`sort_values('ProductName', ascending=False)`). -/
def company_stats (df : DataFrame) : List (Cell × Nat × Nat) :=
  List.insertionSort (descBy (fun x : Cell × Nat × Nat => x.2.1)) (company_stats_raw df)

/-- The subset of rows with a non-null `DiscontinuedDate`. -/
def discontinuedRows (df : DataFrame) : List Record :=
  df.rows.filter (fun r => decide (r "DiscontinuedDate" ≠ Cell.null))

structure DiscSection where
  subsetSize : Nat
  topChems : Option (List (Cell × Nat))
  chartSaved : Bool
  deriving DecidableEq, Repr

/-- The discontinued-products part of `product_analysis`: skipped when
the `DiscontinuedDate` column is absent; when present, the subset size is
reported, and the top-10 chemical frequencies with the
`discontinued_chemicals.png` chart are produced only for a non-empty
subset. -/
def disc_analysis (df : DataFrame) : Option DiscSection :=
  if "DiscontinuedDate" ∈ df.cols then
    some { subsetSize := (discontinuedRows df).length,
           topChems :=
             if 0 < (discontinuedRows df).length then
               some ((value_counts ((discontinuedRows df).map (fun r => r "ChemicalName"))).take 10)
             else none,
           chartSaved := decide (0 < (discontinuedRows df).length) }
  else none

structure ProductAnalysisOutput where
  companyStats : List (Cell × Nat × Nat)
  categoryDist : List (Cell × Nat)
  subcatDist : List ((Cell × Cell) × Nat)
  discSection : Option DiscSection
  deriving DecidableEq, Repr

/-- `product_analysis`. -/
def product_analysis (df : DataFrame) : ProductAnalysisOutput :=
  { companyStats := company_stats df,
    categoryDist := value_counts (df.col "PrimaryCategory"),
    subcatDist := groupPairCounts df "PrimaryCategory" "SubCategory",
    discSection := disc_analysis df }

/-! ### advanced_analysis -/

/-- `groupby('ProductName')['ChemicalName'].unique()` for one product:
the distinct chemical values of the group in order of appearance —
`Series.unique` keeps a null among the values. -/
def productGroupChems (df : DataFrame) (p : Cell) : List Cell :=
  (groupRows df "ProductName" p).map (fun r => r "ChemicalName")

/-- `product_chems.apply(len)`: per product, the number of distinct
chemical values, a null counting as a value. -/
def product_chem_counts (df : DataFrame) : List Nat :=
  (groupKeys df "ProductName").map (fun p => (productGroupChems df p).dedup.length)

/-- `product_chems.apply(len).mean()`: the sum of the per-product counts
over their number. -/
def avg_chems_per_product (df : DataFrame) : ℚ :=
  ((product_chem_counts df).sum : ℚ) / ((product_chem_counts df).length : ℚ)

structure AdvancedAnalysisOutput where
  avgChemsPerProduct : ℚ
  brandChems : List (Cell × Nat)
  categoryDiversity : List (Cell × Nat)
  deriving DecidableEq, Repr

/-- `advanced_analysis`. -/
def advanced_analysis (df : DataFrame) : AdvancedAnalysisOutput :=
  { avgChemsPerProduct := avg_chems_per_product df,
    brandChems := List.insertionSort (descBy Prod.snd) (nuniqueBy df "BrandName" "ChemicalName"),
    categoryDiversity := nuniqueBy df "PrimaryCategory" "ChemicalName" }

/-! ### _setup_directories -/

/-- `_setup_directories`, with the outcome of each `os.makedirs` call
passed in as a boolean.  The first creation attempt is inside a
`try`/`except`; the fallback creation in the `except` block is not
guarded, so its failure propagates out of the constructor. -/
def setup_directories (primaryOk fallbackOk : Bool) : Except Unit String :=
  if primaryOk then Except.ok "analysis_results"
  else if fallbackOk then Except.ok "Desktop/cosmetics_analysis"
  else Except.error ()

/-- Whether a constructor run returned normally. -/
def returnedNormally : Except Unit String → Bool
  | Except.ok _ => true
  | Except.error _ => false

/-! ### save_results -/

/-- The body of the single `try` block of `save_results`: the three file
writes in order (1 = cleaned data, 2 = chemical counts, 3 = company
stats), each write's I/O outcome passed in as a boolean.  The result is
the list of completed write indices; a failure throws, carrying the
writes completed before it. -/
def write_sequence (w1 w2 w3 : Bool) : Except (List Nat) (List Nat) :=
  if !w1 then Except.error []
  else if !w2 then Except.error [1]
  else if !w3 then Except.error [1, 2]
  else Except.ok [1, 2, 3]

/-- `save_results`: the `except` clause catches any failure of the write
sequence and reports it, so the method always returns normally.  The
result is the list of completed writes and whether an error was
reported. -/
def save_results (w1 w2 w3 : Bool) : List Nat × Bool :=
  match write_sequence w1 w2 w3 with
  | Except.ok done => (done, false)
  | Except.error done => (done, true)

/-- The chemical-counts table written by `save_results`
(`self.df['ChemicalName'].value_counts().to_csv(...)`). -/
def saved_chem_counts (df : DataFrame) : List (Cell × Nat) :=
  value_counts (df.col "ChemicalName")

/-- The company-statistics table written by `save_results`
(`self.df.groupby('CompanyName').agg(...).to_csv(...)` — written without
the sort applied in `product_analysis`). -/
def saved_company_stats (df : DataFrame) : List (Cell × Nat × Nat) :=
  company_stats_raw df

/-! ### run_full_analysis -/

/-- Which steps of `run_full_analysis` were invoked during a run. -/
structure RunLog where
  basicRan : Bool
  chemicalRan : Bool
  productRan : Bool
  advancedRan : Bool
  saveRan : Bool
  deriving DecidableEq, Repr

/-- The log of a run in which no analysis or save step was invoked. -/
def noStepsRan : RunLog :=
  { basicRan := false, chemicalRan := false, productRan := false,
    advancedRan := false, saveRan := false }

/-- The log of a run in which every step was invoked. -/
def allStepsRan : RunLog :=
  { basicRan := true, chemicalRan := true, productRan := true,
    advancedRan := true, saveRan := true }

/-- Each analysis method reads `self.df` and never reassigns it; the
dataset field after the call is the dataset field before it. -/
def basic_analysis_run (df : DataFrame) : DataFrame × BasicAnalysisOutput :=
  (df, basic_analysis df)

def chemical_analysis_run (df : DataFrame) : DataFrame × ChemicalAnalysisOutput :=
  (df, chemical_analysis df)

def product_analysis_run (df : DataFrame) : DataFrame × ProductAnalysisOutput :=
  (df, product_analysis df)

def advanced_analysis_run (df : DataFrame) : DataFrame × AdvancedAnalysisOutput :=
  (df, advanced_analysis df)

/-- The dataset as it stands after the four analysis steps of
`run_full_analysis`, threading `self.df` through each call. -/
def analyses_pipeline (df : DataFrame) : DataFrame :=
  (advanced_analysis_run
    (product_analysis_run
      (chemical_analysis_run
        (basic_analysis_run df).1).1).1).1

/-- `run_full_analysis`: load, and stop at once when the load failed;
otherwise run the four analyses and the save.  Returns the final
`self.df` and the invocation log. -/
def run_full_analysis (pathExists : Bool) (raw : DataFrame) : Option DataFrame × RunLog :=
  match load_data pathExists raw with
  | (false, d) => (d, noStepsRan)
  | (true, none) => (none, noStepsRan)
  | (true, some df) => (some (analyses_pipeline df), allStepsRan)

/-! ### Concrete fixtures -/

/-- Build a record from an association list; absent columns are null. -/
def mkRecord (l : List (String × Cell)) : Record :=
  fun s => ((l.find? (fun p => p.1 == s)).map Prod.snd).getD Cell.null

/-- Fixture for claim C2: one row whose `InitialDateReported` parses as
2015-03-04 and one row where it is unparseable. -/
def dfW2 : DataFrame :=
  { cols := ["InitialDateReported", "ChemicalName"],
    rows := [mkRecord [("InitialDateReported", Cell.datestr 2015 3 4),
                       ("ChemicalName", Cell.strv "A")],
             mkRecord [("InitialDateReported", Cell.strv "not-a-date"),
                       ("ChemicalName", Cell.strv "B")]] }

/-- Fixture for claim C3: year 2010 only reports chemical A, year 2011
only chemical B, so the (2010, B) matrix cell has no record. -/
def dfC3 : DataFrame :=
  { cols := ["ReportYear", "ChemicalName"],
    rows := [mkRecord [("ReportYear", Cell.int 2010), ("ChemicalName", Cell.strv "A")],
             mkRecord [("ReportYear", Cell.int 2011), ("ChemicalName", Cell.strv "B")]] }

/-- Fixture for claim C4: the `DiscontinuedDate` column is present but
null in every row, so the discontinued subset is empty. -/
def dfC4 : DataFrame :=
  { cols := ["DiscontinuedDate", "ChemicalName"],
    rows := [mkRecord [("ChemicalName", Cell.strv "A")]] }

/-- Fixture for the amended claim C4: a non-empty discontinued subset. -/
def dfW4 : DataFrame :=
  { cols := ["DiscontinuedDate", "ChemicalName"],
    rows := [mkRecord [("DiscontinuedDate", Cell.date 2012 1 1),
                       ("ChemicalName", Cell.strv "A")]] }

/-- Fixture for claim C7: product P has chemical A in one row and a null
chemical in the other. -/
def dfC7 : DataFrame :=
  { cols := ["ProductName", "ChemicalName"],
    rows := [mkRecord [("ProductName", Cell.strv "P"), ("ChemicalName", Cell.strv "A")],
             mkRecord [("ProductName", Cell.strv "P")]] }

/-- Fixture for claim C9: two companies with two and one distinct
products. -/
def dfW9 : DataFrame :=
  { cols := ["CompanyName", "ProductName", "ChemicalName"],
    rows := [mkRecord [("CompanyName", Cell.strv "C1"), ("ProductName", Cell.strv "P1"),
                       ("ChemicalName", Cell.strv "A")],
             mkRecord [("CompanyName", Cell.strv "C1"), ("ProductName", Cell.strv "P2"),
                       ("ChemicalName", Cell.strv "A")],
             mkRecord [("CompanyName", Cell.strv "C2"), ("ProductName", Cell.strv "P1"),
                       ("ChemicalName", Cell.strv "A")]] }

/-- Follows the spec wording for claim C7, for comparison with
`avg_chems_per_product`: distinct means unique non-null values, so a
null chemical does not count towards a product's tally. -/
def spec_avg_chems_per_product (df : DataFrame) : ℚ :=
  (((groupKeys df "ProductName").map
      (fun p => nuniqueCells (productGroupChems df p))).sum : ℚ)
    / ((groupKeys df "ProductName").length : ℚ)

/-- The ReportYear value asserted by claim C2 for a raw
`InitialDateReported` cell: the calendar year where the raw value parses
as a date, null where it is null or unparseable. -/
def claimedReportYear : Cell → Cell
  | Cell.datestr y _ _ => Cell.int (Int.ofNat y)
  | Cell.date y _ _ => Cell.int (Int.ofNat y)
  | _ => Cell.null

/-! ### Lemmas about the cleaning phase -/

theorem foldl_setCol_cols (cs : List String) (df : DataFrame) :
    (cs.foldl (fun d c => if c ∈ d.cols then d.setCol c toDatetime else d) df).cols
      = df.cols := by
  induction cs generalizing df with
  | nil => rfl
  | cons c cs ih =>
    simp only [List.foldl_cons]
    rw [ih]
    by_cases h : c ∈ df.cols
    · simp [h, DataFrame.setCol]
    · simp [h]

theorem foldl_setCol_rows (cs : List String) (df : DataFrame) :
    (cs.foldl (fun d c => if c ∈ d.cols then d.setCol c toDatetime else d) df).rows
      = df.rows.map (coerceFn cs df.cols) := by
  induction cs generalizing df with
  | nil =>
    exact (List.map_id' df.rows).symm
  | cons c cs ih =>
    simp only [List.foldl_cons]
    by_cases h : c ∈ df.cols
    · rw [if_pos h, ih]
      simp only [DataFrame.setCol, List.map_map]
      apply List.map_congr_left
      intro r _
      simp [coerceFn, h, Function.comp]
    · rw [if_neg h, ih]
      apply List.map_congr_left
      intro r _
      simp [coerceFn, h]

theorem coerceDates_cols (df : DataFrame) : (coerceDates df).cols = df.cols :=
  foldl_setCol_cols _ df

theorem coerceDates_rows (df : DataFrame) :
    (coerceDates df).rows = df.rows.map (coerceFn date_cols df.cols) :=
  foldl_setCol_rows _ df

theorem ite_updFn_at (p : Prop) [Decidable p] (c : String) (f : Cell → Cell)
    (r : Record) (t : String) (ht : ¬ t = c) :
    (if p then updFn c f r else r) t = r t := by
  split
  · simp [updFn, ht]
  · rfl

/-- Value of the coerced row at `InitialDateReported`. -/
theorem coerceFn_initial (present : List String) (r : Record) :
    coerceFn date_cols present r "InitialDateReported"
      = if "InitialDateReported" ∈ present then toDatetime (r "InitialDateReported")
        else r "InitialDateReported" := by
  simp only [coerceFn, date_cols, List.foldl_cons, List.foldl_nil]
  rw [ite_updFn_at _ _ _ _ _ (by decide), ite_updFn_at _ _ _ _ _ (by decide),
      ite_updFn_at _ _ _ _ _ (by decide), ite_updFn_at _ _ _ _ _ (by decide)]
  by_cases h : "InitialDateReported" ∈ present
  · rw [if_pos h, if_pos h]
    simp [updFn]
  · rw [if_neg h, if_neg h]

/-- After a successful load with `InitialDateReported` present, the
`ReportYear` column is the year of the coerced report date, row by row. -/
theorem cleanData_reportYear (raw : DataFrame)
    (h : "InitialDateReported" ∈ raw.cols) :
    (cleanData raw).col "ReportYear"
      = raw.rows.map (fun r => dtYear (toDatetime (r "InitialDateReported"))) := by
  unfold cleanData addReportYear
  rw [if_pos (by rw [coerceDates_cols]; exact h)]
  unfold DataFrame.addColFrom DataFrame.col
  simp only [List.map_map]
  rw [coerceDates_rows]
  simp only [List.map_map]
  apply List.map_congr_left
  intro r _
  simp only [Function.comp_apply, if_pos rfl, if_true]
  rw [coerceFn_initial, if_pos h]

/-! ### Counting lemmas -/

theorem chem_trends_cell_getD (df : DataFrame) (y c : Cell) :
    (chem_trends_cell df y c).getD 0 = trendCount df y c := by
  unfold chem_trends_cell
  by_cases h : trendCount df y c = 0
  · simp [h]
  · simp [h]

theorem count_pair_fiber (T : List (Cell × Cell)) (y c : Cell) :
    T.count (y, c) = ((T.filter (fun p => decide (p.1 = y))).map Prod.snd).count c := by
  induction T with
  | nil => rfl
  | cons p t ih =>
    rcases p with ⟨a, b⟩
    by_cases ha : a = y
    · subst ha
      by_cases hb : b = c
      · subst hb
        simp [List.count_cons, List.filter_cons, ih]
      · simp [List.count_cons, List.filter_cons, hb, ih, Prod.ext_iff]
    · simp [List.count_cons, List.filter_cons, ha, ih, Prod.ext_iff]

theorem sum_counts_over_superset (S D : List Cell) (hD : D.Nodup)
    (hsub : ∀ x ∈ S, x ∈ D) :
    (D.map (fun c => S.count c)).sum = S.length := by
  rw [← List.sum_toFinset _ hD]
  have hsub' : S.toFinset ⊆ D.toFinset := by
    intro x hx
    exact List.mem_toFinset.mpr (hsub x (List.mem_toFinset.mp hx))
  have hz : ∀ x ∈ D.toFinset, x ∉ S.toFinset → S.count x = 0 := by
    intro x _ hx
    exact List.count_eq_zero.mpr (fun hmem => hx (List.mem_toFinset.mpr hmem))
  rw [← Finset.sum_subset hsub' hz]
  exact List.sum_toFinset_count_eq_length S

theorem trendYears_ne_null (df : DataFrame) (y : Cell) (hy : y ∈ trendYears df) :
    y ≠ Cell.null := by
  unfold trendYears trendPairs at hy
  rw [List.mem_dedup] at hy
  rcases List.mem_map.mp hy with ⟨p, hp, rfl⟩
  rcases List.mem_map.mp hp with ⟨r, hr, rfl⟩
  have hcond := List.of_mem_filter hr
  simp only [decide_eq_true_eq] at hcond
  exact hcond.1

theorem length_fiber (rows : List Record) (y : Cell) (hynull : y ≠ Cell.null) :
    (((rows.filter
          (fun r => decide (r "ReportYear" ≠ Cell.null ∧ r "ChemicalName" ≠ Cell.null))).map
        (fun r => (r "ReportYear", r "ChemicalName"))).filter
        (fun p => decide (p.1 = y))).length
      = (rows.filter
          (fun r => decide (r "ReportYear" = y ∧ r "ChemicalName" ≠ Cell.null))).length := by
  rw [← List.countP_eq_length_filter, ← List.countP_eq_length_filter,
    List.countP_map, List.countP_filter]
  apply List.countP_congr
  intro r _
  by_cases h1 : r "ReportYear" = y
  · by_cases h2 : r "ChemicalName" = Cell.null
    · simp [h1, h2]
    · simp [h1, h2, hynull]
  · by_cases h2 : r "ChemicalName" = Cell.null
    · simp [h1, h2]
    · simp [h1, h2]

theorem dedup_length_split (l : List Cell) :
    l.dedup.length
      = (l.filter (fun v => decide (v ≠ Cell.null))).dedup.length
        + (if Cell.null ∈ l then 1 else 0) := by
  rw [← List.card_toFinset, ← List.card_toFinset]
  have h1 : (l.filter (fun v => decide (v ≠ Cell.null))).toFinset
      = l.toFinset.filter (fun v => ¬ v = Cell.null) := by
    ext x
    simp [List.mem_filter]
  rw [h1]
  have h2 := Finset.filter_card_add_filter_neg_card_eq_card
    (s := l.toFinset) (p := fun v => v = Cell.null)
  have h3 : (l.toFinset.filter (fun v => v = Cell.null)).card
      = (if Cell.null ∈ l then 1 else 0) := by
    rw [Finset.filter_eq' l.toFinset Cell.null]
    by_cases hn : Cell.null ∈ l
    · rw [if_pos (List.mem_toFinset.mpr hn), if_pos hn, Finset.card_singleton]
    · rw [if_neg (fun hm => hn (List.mem_toFinset.mp hm)), if_neg hn, Finset.card_empty]
  omega

theorem trendChems_nodup (df : DataFrame) : (trendChems df).Nodup :=
  List.nodup_dedup _

theorem trendChems_superset (df : DataFrame) (y : Cell) :
    ∀ x ∈ ((trendPairs df).filter (fun p => decide (p.1 = y))).map Prod.snd,
      x ∈ trendChems df := by
  intro x hx
  rcases List.mem_map.mp hx with ⟨p, hp, rfl⟩
  have hpT : p ∈ trendPairs df := List.mem_of_mem_filter hp
  exact List.mem_dedup.mpr (List.mem_map.mpr ⟨p, hpT, rfl⟩)

/-- The per-year total printed by `chemical_analysis` counts exactly the
records with that report year and a non-null chemical name: the missing
matrix cells, being skipped by the sum, contribute zero. -/
theorem perYearTotal_eq (df : DataFrame) (y : Cell) (hy : y ∈ trendYears df) :
    perYearTotal df y
      = (df.rows.filter
          (fun r => decide (r "ReportYear" = y ∧ r "ChemicalName" ≠ Cell.null))).length := by
  have hynull := trendYears_ne_null df y hy
  unfold perYearTotal
  have h1 : (trendChems df).map (fun c => (chem_trends_cell df y c).getD 0)
      = (trendChems df).map
          (fun c =>
            (((trendPairs df).filter (fun p => decide (p.1 = y))).map Prod.snd).count c) := by
    apply List.map_congr_left
    intro c _
    rw [chem_trends_cell_getD]
    exact count_pair_fiber _ y c
  rw [h1, sum_counts_over_superset _ _ (trendChems_nodup df) (trendChems_superset df y),
    List.length_map]
  unfold trendPairs
  rw [← length_fiber df.rows y hynull]

/-! ### The claims -/

/-- Claim C1: for a path that does not exist, `load_data` returns a
failure signal and leaves `self.df` at `None`, and `run_full_analysis`
after such a failed load invokes none of the analysis or save steps. -/
theorem c1_failed_load_runs_nothing (raw : DataFrame) :
    load_data false raw = (false, none) ∧
    run_full_analysis false raw = (none, noStepsRan) ∧
    noStepsRan.basicRan = false ∧ noStepsRan.chemicalRan = false ∧
    noStepsRan.productRan = false ∧ noStepsRan.advancedRan = false ∧
    noStepsRan.saveRan = false :=
  ⟨rfl, rfl, rfl, rfl, rfl, rfl, rfl⟩

/-- Claim C2: after a successful load on a dataset with the
`InitialDateReported` column, each record's `ReportYear` is the calendar
year of its `InitialDateReported` value when that value parses as a date,
and is null when the value is null or unparseable. -/
theorem c2_report_year (raw : DataFrame) (h : "InitialDateReported" ∈ raw.cols)
    (i : Nat) (cell : Cell)
    (hc : (raw.col "InitialDateReported").get? i = some cell) :
    ((cleanData raw).col "ReportYear").get? i = some (claimedReportYear cell) := by
  rw [cleanData_reportYear raw h]
  unfold DataFrame.col at hc
  rw [List.get?_map] at hc ⊢
  rcases ho : raw.rows.get? i with _ | r
  · rw [ho] at hc
    exact absurd hc (by simp)
  · rw [ho] at hc
    have hcell : r "InitialDateReported" = cell := by
      simpa using hc
    show some (dtYear (toDatetime (r "InitialDateReported"))) = _
    rw [hcell]
    cases cell <;> rfl

/-- Witness for claim C2 at a concrete frame: a parsed date gives its
year and an unparseable value gives null. -/
theorem c2_witness :
    ("InitialDateReported" ∈ dfW2.cols) ∧
    ((cleanData dfW2).col "ReportYear").get? 0 = some (Cell.int (Int.ofNat 2015)) ∧
    ((cleanData dfW2).col "ReportYear").get? 1 = some Cell.null :=
  ⟨by decide,
   c2_report_year dfW2 (by decide) 0 (Cell.datestr 2015 3 4) (by decide),
   c2_report_year dfW2 (by decide) 1 (Cell.strv "not-a-date") (by decide)⟩

/-- Claim C3 counterexample: in the year × chemical matrix, the
(2010, "B") combination — both labels occur in the matrix, the
combination has no record — is a missing cell (NaN from `unstack()`),
not a zero. -/
theorem c3_counterexample :
    Cell.int 2010 ∈ trendYears dfC3 ∧ Cell.strv "B" ∈ trendChems dfC3 ∧
    chem_trends_cell dfC3 (Cell.int 2010) (Cell.strv "B") = none ∧
    chem_trends_cell dfC3 (Cell.int 2010) (Cell.strv "B") ≠ some 0 := by
  refine ⟨by decide, by decide, by decide, by decide⟩

/-- Claim C3 (amended): with `ReportYear` present the year × chemical
matrix has years as rows and chemicals as columns, a missing combination
is a null cell (not zero) while a present one carries its group size, the
per-year total nevertheless counts exactly the records of that year with
a non-null chemical (null cells are skipped by the sum), and the trends
chart is saved; with `ReportYear` absent neither matrix nor chart is
produced. -/
theorem c3_trends_matrix (df : DataFrame) :
    (∀ y c, trendCount df y c = 0 → chem_trends_cell df y c = none) ∧
    (∀ y c, 0 < trendCount df y c → chem_trends_cell df y c = some (trendCount df y c)) ∧
    (∀ y, y ∈ trendYears df →
      perYearTotal df y
        = (df.rows.filter
            (fun r => decide (r "ReportYear" = y ∧ r "ChemicalName" ≠ Cell.null))).length) ∧
    ("ReportYear" ∈ df.cols →
      (chemical_analysis df).chartSaved = true ∧
      (chemical_analysis df).perYearTotals
        = some ((trendYears df).map (fun y => (y, perYearTotal df y)))) ∧
    ("ReportYear" ∉ df.cols →
      (chemical_analysis df).perYearTotals = none ∧
      (chemical_analysis df).chartSaved = false) := by
  refine ⟨?_, ?_, ?_, ?_, ?_⟩
  · intro y c hc
    unfold chem_trends_cell
    rw [if_pos hc]
  · intro y c hc
    unfold chem_trends_cell
    rw [if_neg (Nat.pos_iff_ne_zero.mp hc)]
  · intro y hy
    exact perYearTotal_eq df y hy
  · intro h
    unfold chemical_analysis
    constructor
    · simpa using h
    · simp [h]
  · intro h
    unfold chemical_analysis
    constructor
    · simp [h]
    · simpa using h

/-- Witness for the amended claim C3 at a concrete frame: the per-year
total for 2010 via the membership hypothesis, and the chart/matrix for
the present `ReportYear` column. -/
theorem c3_witness :
    (Cell.int 2010 ∈ trendYears dfC3) ∧
    perYearTotal dfC3 (Cell.int 2010)
      = (dfC3.rows.filter
          (fun r => decide (r "ReportYear" = Cell.int 2010 ∧ r "ChemicalName" ≠ Cell.null))).length ∧
    ((chemical_analysis dfC3).chartSaved = true ∧
      (chemical_analysis dfC3).perYearTotals
        = some ((trendYears dfC3).map (fun y => (y, perYearTotal dfC3 y)))) :=
  ⟨by decide,
   (c3_trends_matrix dfC3).2.2.1 (Cell.int 2010) (by decide),
   (c3_trends_matrix dfC3).2.2.2.1 (by decide)⟩

/-- Claim C4 counterexample: with the `DiscontinuedDate` column present
but the discontinued subset empty, only the size 0 is reported — the
top-10 frequency and the chart are not produced, while the claim promises
them. -/
theorem c4_counterexample :
    ("DiscontinuedDate" ∈ dfC4.cols) ∧
    disc_analysis dfC4
      = some { subsetSize := 0, topChems := none, chartSaved := false } := by
  refine ⟨by decide, by decide⟩

/-- Claim C4 (amended): the discontinued-subset analysis is skipped
entirely when `DiscontinuedDate` is absent; when present the subset size
(possibly 0) is always reported, and the top-10 chemical frequency and
the `discontinued_chemicals.png` chart are produced exactly when the
subset is non-empty. -/
theorem c4_discontinued (df : DataFrame) :
    ("DiscontinuedDate" ∉ df.cols → disc_analysis df = none) ∧
    ("DiscontinuedDate" ∈ df.cols → ∃ s : DiscSection,
      disc_analysis df = some s ∧
      s.subsetSize = (discontinuedRows df).length ∧
      (s.topChems.isSome ↔ 0 < (discontinuedRows df).length) ∧
      (s.chartSaved = true ↔ 0 < (discontinuedRows df).length) ∧
      (0 < (discontinuedRows df).length →
        s.topChems
          = some ((value_counts ((discontinuedRows df).map (fun r => r "ChemicalName"))).take 10))) := by
  constructor
  · intro h
    unfold disc_analysis
    rw [if_neg h]
  · intro h
    unfold disc_analysis
    rw [if_pos h]
    refine ⟨_, rfl, rfl, ?_, ?_, ?_⟩
    · by_cases hl : 0 < (discontinuedRows df).length <;> simp [hl]
    · by_cases hl : 0 < (discontinuedRows df).length <;> simp [hl]
    · intro hl
      simp [hl]

/-- Witness for the amended claim C4 at a concrete frame with a
non-empty discontinued subset. -/
theorem c4_witness :
    ("DiscontinuedDate" ∈ dfW4.cols) ∧ ∃ s : DiscSection,
      disc_analysis dfW4 = some s ∧
      s.subsetSize = (discontinuedRows dfW4).length ∧
      (s.topChems.isSome ↔ 0 < (discontinuedRows dfW4).length) ∧
      (s.chartSaved = true ↔ 0 < (discontinuedRows dfW4).length) ∧
      (0 < (discontinuedRows dfW4).length →
        s.topChems
          = some ((value_counts ((discontinuedRows dfW4).map (fun r => r "ChemicalName"))).take 10)) :=
  ⟨by decide, (c4_discontinued dfW4).2 (by decide)⟩

/-- Claim C5 counterexample: when both directory creations fail, the
fallback `os.makedirs` — which is not inside the `try` block — raises out
of the constructor, so construction does fail outright. -/
theorem c5_counterexample :
    returnedNormally (setup_directories false false) = false ∧
    setup_directories false false = Except.error () :=
  ⟨rfl, rfl⟩

/-- Claim C5 (amended): the constructor returns normally exactly when the
primary directory creation succeeds or the desktop fallback creation
succeeds; only when both fail does the exception propagate. -/
theorem c5_setup_directories (primaryOk fallbackOk : Bool) :
    returnedNormally (setup_directories primaryOk fallbackOk)
      = (primaryOk || fallbackOk) := by
  cases primaryOk <;> cases fallbackOk <;> rfl

/-- Claim C6: a single catch wraps the three writes of `save_results`, so
an I/O failure during any write is caught and reported, aborts the
remaining writes of the call, never propagates, and leaves the writes
completed before it in place. -/
theorem c6_save_results (w1 w2 w3 : Bool) :
    ((save_results w1 w2 w3).2 = true ↔ ¬(w1 = true ∧ w2 = true ∧ w3 = true)) ∧
    (w1 = false → save_results w1 w2 w3 = ([], true)) ∧
    (w1 = true → w2 = false → save_results w1 w2 w3 = ([1], true)) ∧
    (w1 = true → w2 = true → w3 = false → save_results w1 w2 w3 = ([1, 2], true)) ∧
    (w1 = true → w2 = true → w3 = true → save_results w1 w2 w3 = ([1, 2, 3], false)) := by
  cases w1 <;> cases w2 <;> cases w3 <;>
    simp [save_results, write_sequence]

/-- Witness for claim C6: a failure of the second write leaves the first
write in place, skips the third, and is reported. -/
theorem c6_witness : save_results true false true = ([1], true) :=
  (c6_save_results true false true).2.2.1 rfl rfl

/-- Claim C7 counterexample: with product P having chemical A and a null
chemical, the code's `unique()`-based tally counts the null, giving mean
2.0 where the claimed distinct-non-null reading gives 1.0. -/
theorem c7_counterexample :
    avg_chems_per_product dfC7 = 2 ∧
    spec_avg_chems_per_product dfC7 = 1 ∧
    avg_chems_per_product dfC7 ≠ spec_avg_chems_per_product dfC7 := by
  have h1 : product_chem_counts dfC7 = [2] := by decide
  have h2 : groupKeys dfC7 "ProductName" = [Cell.strv "P"] := by decide
  have h3 : nuniqueCells (productGroupChems dfC7 (Cell.strv "P")) = 1 := by decide
  have ha : avg_chems_per_product dfC7 = 2 := by
    unfold avg_chems_per_product
    rw [h1]
    norm_num
  have hb : spec_avg_chems_per_product dfC7 = 1 := by
    unfold spec_avg_chems_per_product
    rw [h2]
    simp only [List.map_cons, List.map_nil, List.sum_cons, List.sum_nil,
      List.length_cons, List.length_nil, h3]
    norm_num
  exact ⟨ha, hb, by rw [ha, hb]; norm_num⟩

/-- Claim C7 (amended): `advanced_analysis` reports the mean over
products of the number of distinct chemical values per product, where a
null chemical counts as one additional value when present (the code uses
`unique()`, which keeps NaN, rather than a non-null distinct count). -/
theorem c7_avg_chems (df : DataFrame) :
    avg_chems_per_product df
      = ((((groupKeys df "ProductName").map
            (fun p => nuniqueCells (productGroupChems df p)
                + (if Cell.null ∈ productGroupChems df p then 1 else 0))).sum : ℚ))
        / ((groupKeys df "ProductName").length : ℚ) := by
  unfold avg_chems_per_product product_chem_counts
  rw [List.length_map]
  congr 2
  apply congrArg List.sum
  apply List.map_congr_left
  intro p _
  rw [dedup_length_split (productGroupChems df p)]
  rfl

/-- Claim C8: the per-value counts of the `ChemicalName` frequency table
of `chemical_analysis` sum to the number of records with a non-null
`ChemicalName`. -/
theorem c8_value_counts_sum (df : DataFrame) :
    (((chemical_analysis df).chemCounts).map Prod.snd).sum
      = (df.rows.filter (fun r => decide (r "ChemicalName" ≠ Cell.null))).length := by
  show ((value_counts (df.col "ChemicalName")).map Prod.snd).sum = _
  unfold value_counts
  have hperm := List.perm_insertionSort (descBy (Prod.snd : Cell × Nat → Nat))
    (((df.col "ChemicalName").filter (fun v => decide (v ≠ Cell.null))).dedup.map
      (fun v => (v, ((df.col "ChemicalName").filter (fun v => decide (v ≠ Cell.null))).count v)))
  rw [(hperm.map Prod.snd).sum_eq, List.map_map]
  have h1 := List.sum_map_count_dedup_eq_length
    ((df.col "ChemicalName").filter (fun v => decide (v ≠ Cell.null)))
  rw [show (Prod.snd ∘ fun v : Cell =>
      (v, ((df.col "ChemicalName").filter (fun v => decide (v ≠ Cell.null))).count v))
      = (fun v : Cell =>
          ((df.col "ChemicalName").filter (fun v => decide (v ≠ Cell.null))).count v) from rfl]
  rw [h1]
  unfold DataFrame.col
  rw [← List.countP_eq_length_filter, ← List.countP_eq_length_filter, List.countP_map]
  rfl

/-- Claim C9: down the sorted top-10 per-company report, the
distinct-product count never increases between consecutive rows. -/
theorem c9_company_stats_sorted (df : DataFrame) (i : Nat)
    (h : i + 1 < ((company_stats df).take 10).length) :
    (((company_stats df).take 10).get ⟨i + 1, h⟩).2.1
      ≤ (((company_stats df).take 10).get ⟨i, Nat.lt_of_succ_lt h⟩).2.1 := by
  have hs : List.Sorted (descBy (fun x : Cell × Nat × Nat => x.2.1)) (company_stats df) :=
    List.sorted_insertionSort _ _
  have ht : List.Sorted (descBy (fun x : Cell × Nat × Nat => x.2.1))
      ((company_stats df).take 10) :=
    List.Pairwise.sublist (List.take_sublist 10 _) hs
  exact ht.rel_get_of_lt (Fin.mk_lt_mk.mpr (Nat.lt_succ_self i))

/-- Witness for claim C9 at a concrete frame with two companies. -/
theorem c9_witness :
    ∃ h : 0 + 1 < ((company_stats dfW9).take 10).length,
      (((company_stats dfW9).take 10).get ⟨0 + 1, h⟩).2.1
        ≤ (((company_stats dfW9).take 10).get ⟨0, Nat.lt_of_succ_lt h⟩).2.1 :=
  ⟨by decide, c9_company_stats_sorted dfW9 0 (by decide)⟩

/-- Claim C10: the four analysis steps leave the dataset unchanged, the
chemical-frequency table written by `save_results` is the one computed in
`chemical_analysis`, and the company table written by `save_results` is
the company statistics of `product_analysis` up to row order (the saved
table unsorted, the reported one sorted). -/
theorem c10_saved_tables_match (df : DataFrame) :
    analyses_pipeline df = df ∧
    saved_chem_counts (analyses_pipeline df) = (chemical_analysis df).chemCounts ∧
    List.Perm ((product_analysis df).companyStats) (saved_company_stats (analyses_pipeline df)) :=
  ⟨rfl, rfl, List.perm_insertionSort _ _⟩

end CosmeticsAnalysis
